import Mathlib

/-!
Verification of the atalantabot trading-bot core against its specification.

The definitions below are a shallow embedding of the Python sources:
`src/sniper/monitor.py` (TokenMonitor), `src/dex/multi_dex.py`
(MultiDEXScanner), `src/sniper/executor.py` (SniperExecutor) and
`src/dex/kumbaya.py` (calculate_slippage).  Machine floats are modelled
as rationals, Python ints as Nat/Int, Python dicts as ordered
association lists, and the asyncio queue as a list used FIFO.
-/

namespace AtalantaBot

/-! ## Launch monitor (src/sniper/monitor.py) -/

/-- `TokenLaunch` dataclass from monitor.py (timestamp as an abstract tick). -/
structure TokenLaunch where
  token_address : String
  token0 : String
  token1 : String
  pair_address : String
  all_pairs_length : Nat
  block_number : Nat
  transaction_hash : String
  timestamp : Nat
deriving DecidableEq, Repr

/-- The WETH placeholder address hard-coded in `_handle_pair_created_event`. -/
def wethPlaceholder : String := "0xEeeeeEeeeEeEeeEeEeEeeEEEeeeeEeeeeeeeEEeE"

/-- Python's `str.lower()` (ASCII case folding), written structurally over
the character list. -/
def pyLower (s : String) : String := String.mk (s.data.map Char.toLower)

/-- The mutable fields of `TokenMonitor` that the cache logic touches. -/
structure MonitorState where
  recent_launches : List TokenLaunch
  max_cache_size : Nat
  blacklisted_tokens : List String
  whitelisted_tokens : List String
deriving DecidableEq, Repr

/-- `_should_process_token`: blacklist rejects, non-empty whitelist requires
membership, both checked case-insensitively. -/
def should_process_token (st : MonitorState) (token_address : String) : Bool :=
  if (st.blacklisted_tokens.map pyLower).contains (pyLower token_address) then
    false
  else if !st.whitelisted_tokens.isEmpty &&
      !((st.whitelisted_tokens.map pyLower).contains (pyLower token_address)) then
    false
  else
    true

/-- Decoded `PairCreated` event arguments as read by the handler. -/
structure PairCreatedEvent where
  token0 : String
  token1 : String
  pair : String
  allPairsLength : Nat
  blockNumber : Nat
  transactionHash : String
deriving DecidableEq, Repr

/-- The token0/token1-vs-WETH dispatch at the top of
`_handle_pair_created_event`; `none` means the event is skipped. -/
def newTokenOfEvent (ev : PairCreatedEvent) : Option String :=
  if pyLower ev.token0 = pyLower wethPlaceholder then some ev.token1
  else if pyLower ev.token1 = pyLower wethPlaceholder then some ev.token0
  else none

/-- The `TokenLaunch` record built by `_handle_pair_created_event`. -/
def mkTokenLaunch (ev : PairCreatedEvent) (new_token : String) (now : Nat) : TokenLaunch :=
  { token_address := new_token
    token0 := ev.token0
    token1 := ev.token1
    pair_address := ev.pair
    all_pairs_length := ev.allPairsLength
    block_number := ev.blockNumber
    transaction_hash := ev.transactionHash
    timestamp := now }

/-- The cache-append-and-trim step of `_handle_pair_created_event`
(lines 180-183): append, then keep the last `max_cache_size` items
whenever the length exceeds it. -/
def monitor_cache_add (max_cache_size : Nat) (cache : List TokenLaunch)
    (launch : TokenLaunch) : List TokenLaunch :=
  let c := cache ++ [launch]
  if max_cache_size < c.length then c.drop (c.length - max_cache_size) else c

/-- `_handle_pair_created_event`: WETH-dispatch, filters, build the launch,
append to the cache and trim. -/
def handle_pair_created_event (st : MonitorState) (ev : PairCreatedEvent)
    (now : Nat) : MonitorState :=
  match newTokenOfEvent ev with
  | none => st
  | some new_token =>
    if should_process_token st new_token then
      let launch := mkTokenLaunch ev new_token now
      { st with recent_launches :=
          monitor_cache_add st.max_cache_size st.recent_launches launch }
    else st

/-- `simulate_launch_detection`: builds a placeholder launch and appends it
to the cache without any trimming. -/
def simulate_launch_detection (st : MonitorState) (token_address : String)
    (now : Nat) : MonitorState :=
  let launch : TokenLaunch :=
    { token_address := token_address
      token0 := wethPlaceholder
      token1 := token_address
      pair_address := "0x0000000000000000000000000000000000000000"
      all_pairs_length := 1
      block_number := 12345
      transaction_hash :=
        "0x0000000000000000000000000000000000000000000000000000000000000000"
      timestamp := now }
  { st with recent_launches := st.recent_launches ++ [launch] }

/-- Python's `l[start:]` slice semantics for an integer start index:
a negative start counts from the end and is clamped at 0, a nonnegative
start is clamped at the length. -/
def pySliceFrom {α : Type _} (l : List α) (start : Int) : List α :=
  if start < 0 then l.drop (max 0 ((l.length : Int) + start)).toNat
  else l.drop (min (l.length : Int) start).toNat

/-- `get_recent_launches`: returns `recent_launches[-limit:]`. -/
def get_recent_launches (st : MonitorState) (limit : Int) : List TokenLaunch :=
  pySliceFrom st.recent_launches (-limit)

/-! ## Arbitrage scanner (src/dex/multi_dex.py) -/

/-- `ArbitrageOpportunity` dataclass (floats as rationals, timestamp as a tick). -/
structure ArbitrageOpportunity where
  token_address : String
  token_symbol : String
  dex_a : String
  dex_b : String
  price_a : ℚ
  price_b : ℚ
  profit_percentage : ℚ
  gas_estimate : ℚ
  net_profit : ℚ
  is_executable : Bool
  discovered_at : Nat
deriving DecidableEq, Repr

/-- The per-token body of `_scan_dex_pair` (lines 174-218): spread
computation, buy/sell orientation, gas-adjusted net profit and the
executability flag.  `none` when the quotes are nonpositive or the spread
does not exceed the configured threshold. -/
def scan_dex_pair_token (dex_a_name dex_b_name token_address token_symbol : String)
    (price_a price_b : ℚ) (min_profit_threshold gas_estimate gas_price : ℚ)
    (now : Nat) : Option ArbitrageOpportunity :=
  if 0 < price_a ∧ 0 < price_b then
    let price_diff_pct := |price_a - price_b| / min price_a price_b * 100
    if min_profit_threshold < price_diff_pct then
      let buy_dex := if price_a < price_b then dex_a_name else dex_b_name
      let sell_dex := if price_a < price_b then dex_b_name else dex_a_name
      let buy_price := if price_a < price_b then price_a else price_b
      let sell_price := if price_a < price_b then price_b else price_a
      let trade_amount : ℚ := 1 / 10
      let gross_profit := (sell_price - buy_price) * trade_amount
      let gas_cost_eth := gas_estimate * gas_price / 10 ^ 18
      let net_profit := gross_profit - gas_cost_eth
      let is_executable : Bool := decide (1 / 1000 < net_profit)
      some
        { token_address := token_address
          token_symbol := token_symbol
          dex_a := buy_dex
          dex_b := sell_dex
          price_a := buy_price
          price_b := sell_price
          profit_percentage := price_diff_pct
          gas_estimate := gas_estimate
          net_profit := net_profit
          is_executable := is_executable
          discovered_at := now }
    else none
  else none

/-- The cache step of `_scan_loop` (lines 105-118): filter the scanned
opportunities to the profitable executable ones, and only when that list
is non-empty extend the cache and trim it to the last `max_cache_size`. -/
def scan_loop_cache_step (min_profit_threshold : ℚ) (max_cache_size : Nat)
    (cache : List ArbitrageOpportunity) (opportunities : List ArbitrageOpportunity) :
    List ArbitrageOpportunity :=
  let profitable_opps := opportunities.filter
    (fun opp => decide (min_profit_threshold < opp.profit_percentage) && opp.is_executable)
  if profitable_opps.isEmpty then cache
  else
    let c := cache ++ profitable_opps
    if max_cache_size < c.length then c.drop (c.length - max_cache_size) else c

/-- `get_recent_opportunities`: returns `recent_opportunities[-limit:]`. -/
def get_recent_opportunities (cache : List ArbitrageOpportunity) (limit : Int) :
    List ArbitrageOpportunity :=
  pySliceFrom cache (-limit)

/-! ## Sniper executor (src/sniper/executor.py) -/

/-- `SnipeRequest` dataclass (request_time as integer epoch seconds). -/
structure SnipeRequest where
  user_id : Nat
  token_address : String
  amount_eth : ℚ
  max_slippage_percent : ℚ
  wallet_address : String
  request_time : Nat
  priority_fee : Option ℚ := none
deriving DecidableEq, Repr

/-- `SnipeResult` dataclass. -/
structure SnipeResult where
  success : Bool
  transaction_hash : Option String
  error_message : Option String
  gas_used : Option Nat
  gas_cost : Option ℚ
  token_amount_received : Option ℚ
  actual_slippage : Option ℚ
  execution_time : ℚ
deriving DecidableEq, Repr

/-- The request identity key built in `submit_snipe` (line 136):
`f"snipe_{user_id}_{int(request_time.timestamp())}"`. -/
def request_key (r : SnipeRequest) : String :=
  "snipe_" ++ toString r.user_id ++ "_" ++ toString r.request_time

/-- The mutable state of `SniperExecutor`: the (unbounded) asyncio queue
as a FIFO list, and the two dicts as insertion-ordered association lists. -/
structure ExecutorState where
  execution_queue : List SnipeRequest
  active_snipes : List (String × SnipeRequest)
  snipe_results : List (String × SnipeResult)
deriving DecidableEq, Repr

/-- Python dict assignment `d[k] = v`: overwrite in place when the key is
present, append otherwise (insertion order preserved). -/
def dictInsert {α : Type _} (l : List (String × α)) (k : String) (v : α) :
    List (String × α) :=
  if (l.lookup k).isSome then
    l.map (fun p => if p.1 == k then (k, v) else p)
  else
    l ++ [(k, v)]

/-- `submit_snipe` (lines 133-145): build the key, store the request in
`active_snipes`, enqueue it, and return the key.  There is no capacity
check and no failure path. -/
def submit_snipe (st : ExecutorState) (r : SnipeRequest) : String × ExecutorState :=
  let rid := request_key r
  (rid,
    { st with
      active_snipes := dictInsert st.active_snipes rid r
      execution_queue := st.execution_queue ++ [r] })

/-- Token metadata returned by the DEX collaborator. -/
structure TokenInfo where
  symbol : String
deriving DecidableEq, Repr

/-- Outcomes of the external collaborators consulted by `_execute_snipe`:
the preflight checks, `get_token_info`, `build_swap_transaction`
(falsy dict on failure), gas estimation and the measured wall-clock time. -/
structure ExecEnv where
  preflight_ok : Bool
  token_info : Option TokenInfo
  build_ok : Bool
  gas_estimate : Nat
  gas_price : Nat
  execution_time : ℚ
deriving DecidableEq, Repr

/-- The failure results built by `_execute_snipe` for the three structured
failure paths (all fields null, execution_time 0). -/
def failedSnipeResult (msg : String) : SnipeResult :=
  { success := false
    transaction_hash := none
    error_message := some msg
    gas_used := none
    gas_cost := none
    token_amount_received := none
    actual_slippage := none
    execution_time := 0 }

/-- `_execute_snipe` (lines 147-258): the three structured failure paths
return a failure result and leave the state untouched; only the success
path stores its result into `snipe_results` (line 254), keyed by the
recomputed request key. -/
def execute_snipe (env : ExecEnv) (st : ExecutorState) (r : SnipeRequest) :
    SnipeResult × ExecutorState :=
  if !env.preflight_ok then
    (failedSnipeResult "Pre-execution checks failed", st)
  else
    match env.token_info with
    | none => (failedSnipeResult "Failed to get token info", st)
    | some _ =>
      if !env.build_ok then
        (failedSnipeResult "Failed to build transaction", st)
      else
        let result : SnipeResult :=
          { success := true
            transaction_hash := none
            error_message := none
            gas_used := some env.gas_estimate
            gas_cost := some ((env.gas_estimate : ℚ) * (env.gas_price : ℚ) / 10 ^ 18)
            token_amount_received := none
            actual_slippage := none
            execution_time := env.execution_time }
        (result, { st with snipe_results := dictInsert st.snipe_results (request_key r) result })

/-- `get_snipe_status` (lines 362-368): look the key up in `snipe_results`;
absent keys yield `none`. -/
def get_snipe_status (st : ExecutorState) (request_id : String) : Option SnipeResult :=
  st.snipe_results.lookup request_id

/-! ## Slippage (src/dex/kumbaya.py, calculate_slippage) -/

/-- Python `int()` applied to a rational: truncation toward zero. -/
def ratTrunc (q : ℚ) : ℤ :=
  if 0 ≤ q then ⌊q⌋ else ⌈q⌉

/-- `calculate_slippage` (lines 219-234): `0` when `get_amounts_out`
returned nothing, otherwise `int(amounts[-1] * (100 - slippage_percent) / 100)`. -/
def calculate_slippage (amounts : Option (List Nat)) (slippage_percent : ℚ) : ℤ :=
  match amounts with
  | none => 0
  | some l =>
    match l.getLast? with
    | none => 0
    | some expected_out => ratTrunc ((expected_out : ℚ) * ((100 - slippage_percent) / 100))

/-! ## Spec-side definitions (for refinement comparisons) -/

/-- The spread formula stated by the spec: `|pA − pB| / min(pA, pB) × 100`. -/
def specSpreadPct (pA pB : ℚ) : ℚ := |pA - pB| / min pA pB * 100

/-- The last `n` elements of a list (the spec's "holds exactly the last N
inserted items"). -/
def specTakeLast {α : Type _} (n : Nat) (l : List α) : List α :=
  (l.reverse.take n).reverse

/-! ## Concrete fixtures used by witnesses and counterexamples -/

/-- A pair-created event whose token0 side is the hard-coded WETH address. -/
def sampleEvent : PairCreatedEvent :=
  { token0 := wethPlaceholder
    token1 := "0xNewToken00000000000000000000000000000001"
    pair := "0xPairAddr0000000000000000000000000000001"
    allPairsLength := 7
    blockNumber := 100
    transactionHash := "0xtxhash" }

/-- A monitor in its initial configuration: empty cache, capacity 100,
no blacklist, no whitelist. -/
def freshMonitor : MonitorState :=
  { recent_launches := []
    max_cache_size := 100
    blacklisted_tokens := []
    whitelisted_tokens := [] }

/-- A monitor whose cache is exactly at its configured capacity of 100. -/
def fullMonitor : MonitorState :=
  { freshMonitor with
    recent_launches := List.replicate 100 (mkTokenLaunch sampleEvent sampleEvent.token1 0) }

/-- A concrete profitable executable opportunity (no division in its fields). -/
def sampleOpp : ArbitrageOpportunity :=
  { token_address := "0xT"
    token_symbol := "TKN"
    dex_a := "kumbaya"
    dex_b := "prismfi"
    price_a := 1
    price_b := 2
    profit_percentage := 1
    gas_estimate := 300000
    net_profit := 1
    is_executable := true
    discovered_at := 0 }

/-- A concrete snipe request. -/
def sampleRequest : SnipeRequest :=
  { user_id := 42
    token_address := "0xT"
    amount_eth := 1
    max_slippage_percent := 5
    wallet_address := "0xW"
    request_time := 1700000000 }

/-- An executor state whose queue already holds `n` requests. -/
def queuedState (n : Nat) : ExecutorState :=
  { execution_queue := List.replicate n sampleRequest
    active_snipes := []
    snipe_results := [] }

/-- A collaborator environment in which the preflight checks fail. -/
def failEnv : ExecEnv :=
  { preflight_ok := false
    token_info := none
    build_ok := false
    gas_estimate := 0
    gas_price := 0
    execution_time := 0 }

/-- The opportunity produced by the scanner at quotes 1 and 2 with
threshold 50 and zero gas. -/
def oppQuotes12 : ArbitrageOpportunity :=
  { token_address := "0xT"
    token_symbol := "TKN"
    dex_a := "X"
    dex_b := "Y"
    price_a := 1
    price_b := 2
    profit_percentage := 100
    gas_estimate := 0
    net_profit := 1 / 10
    is_executable := true
    discovered_at := 0 }

/-- The opportunity produced by the scanner in the spec's Scenario A:
quotes 1.00 and 1.05, probe notional 0.1, gas cost 0.0005. -/
def oppScenarioA : ArbitrageOpportunity :=
  { token_address := "0xMonitored"
    token_symbol := "TKN"
    dex_a := "X"
    dex_b := "Y"
    price_a := 1
    price_b := 21 / 20
    profit_percentage := 5
    gas_estimate := 500000
    net_profit := 9 / 2000
    is_executable := true
    discovered_at := 0 }

/-! ## Helper lemmas -/

/-- The append-and-trim pattern shared by the monitor handler and the scan
loop keeps exactly the last `N` elements. -/
theorem trim_last_eq_rtake {α : Type _} (N : Nat) (l : List α) :
    (if N < l.length then l.drop (l.length - N) else l) = l.rtake N := by
  unfold List.rtake
  split_ifs with h
  · rfl
  · rw [Nat.sub_eq_zero_of_le (le_of_not_lt h), List.drop_zero]

theorem monitor_cache_add_eq_rtake (N : Nat) (c : List TokenLaunch) (x : TokenLaunch) :
    monitor_cache_add N c x = (c ++ [x]).rtake N := by
  unfold monitor_cache_add
  exact trim_last_eq_rtake N (c ++ [x])

theorem monitor_cache_add_no_trim (N : Nat) (c : List TokenLaunch) (x : TokenLaunch)
    (h : c.length + 1 ≤ N) : monitor_cache_add N c x = c ++ [x] := by
  unfold monitor_cache_add
  rw [if_neg]
  simp only [List.length_append, List.length_cons, List.length_nil]
  omega

/-- Taking the last `N` of a partial result and appending more, then taking
the last `N` again, is the same as taking the last `N` of the whole. -/
theorem rtake_append_rtake {α : Type _} (N : Nat) (l m : List α) :
    ((l.rtake N) ++ m).rtake N = (l ++ m).rtake N := by
  have hb : ∀ (t : List α), t.rtake N = (t.reverse.take N).reverse :=
    fun t => List.rtake_eq_reverse_take_reverse t N
  rw [hb, hb, hb, List.reverse_append, List.reverse_append, List.reverse_reverse,
    List.take_append_eq_append_take, List.take_append_eq_append_take, List.take_take,
    List.length_reverse, min_eq_left (Nat.sub_le N m.length)]

/-- Folding the handler's cache step over any non-empty insertion sequence
yields exactly the last `N` of everything ever inserted. -/
theorem foldl_monitor_cache_add (N : Nat) (init : List TokenLaunch) (x : TokenLaunch)
    (xs : List TokenLaunch) :
    List.foldl (monitor_cache_add N) init (x :: xs) = (init ++ x :: xs).rtake N := by
  induction xs generalizing init x with
  | nil => rw [List.foldl_cons, List.foldl_nil, monitor_cache_add_eq_rtake]
  | cons y ys ih =>
    rw [List.foldl_cons, ih (monitor_cache_add N init x) y, monitor_cache_add_eq_rtake,
      rtake_append_rtake, List.append_assoc, List.singleton_append]

theorem specTakeLast_eq_rtake {α : Type _} (N : Nat) (l : List α) :
    specTakeLast N l = l.rtake N :=
  (List.rtake_eq_reverse_take_reverse l N).symm

theorem specTakeLast_length_le {α : Type _} (N : Nat) (l : List α) :
    (specTakeLast N l).length ≤ N := by
  simp only [specTakeLast, List.length_reverse, List.length_take]
  exact min_le_left _ _

/-- Truncation toward zero is monotone. -/
theorem ratTrunc_mono {a b : ℚ} (h : a ≤ b) : ratTrunc a ≤ ratTrunc b := by
  unfold ratTrunc
  split_ifs with ha hb hb
  · exact Int.floor_mono h
  · exact absurd (le_trans ha h) hb
  · calc ⌈a⌉ ≤ 0 := Int.ceil_le.mpr (by exact_mod_cast le_of_lt (not_le.mp ha))
      _ ≤ ⌊b⌋ := Int.le_floor.mpr (by exact_mod_cast hb)
  · exact Int.ceil_mono h

/-- Looking up the overwritten key after a dict-style in-place update. -/
theorem lookup_map_overwrite {α : Type _} (l : List (String × α)) (k : String) (v : α) :
    (l.map (fun p => if p.1 == k then (k, v) else p)).lookup k =
      if (l.lookup k).isSome then some v else none := by
  induction l with
  | nil => simp
  | cons p t ih =>
    obtain ⟨a, b⟩ := p
    by_cases hak : a = k
    · subst hak
      simp [List.lookup_cons]
    · have h1 : (a == k) = false := beq_eq_false_iff_ne.mpr hak
      have h2 : (k == a) = false := beq_eq_false_iff_ne.mpr (Ne.symm hak)
      simp only [List.map_cons, h1, Bool.false_eq_true, if_false, List.lookup_cons, h2]
      exact ih

/-- Python dict assignment always leaves the key bound to the new value. -/
theorem lookup_dictInsert {α : Type _} (l : List (String × α)) (k : String) (v : α) :
    (dictInsert l k v).lookup k = some v := by
  unfold dictInsert
  split_ifs with h
  · rw [lookup_map_overwrite, if_pos h]
  · rw [List.lookup_append]
    cases hl : l.lookup k with
    | some w => rw [hl] at h; simp at h
    | none => simp

/-- Python dict assignment to a present key does not grow the dict. -/
theorem length_dictInsert_present {α : Type _} (l : List (String × α)) (k : String) (v : α)
    (h : (l.lookup k).isSome) : (dictInsert l k v).length = l.length := by
  unfold dictInsert
  rw [if_pos h, List.length_map]

/-- `should_process_token` does not read the launch cache. -/
theorem should_process_token_cache_irrel (st : MonitorState) (rl : List TokenLaunch)
    (t : String) :
    should_process_token { st with recent_launches := rl } t = should_process_token st t :=
  rfl

/-- `_handle_pair_created_event` on an accepted event: unconditional
append-and-trim, with no duplicate check. -/
theorem handle_accepted (st : MonitorState) (ev : PairCreatedEvent) (now : Nat) (t : String)
    (hnew : newTokenOfEvent ev = some t) (hfil : should_process_token st t = true) :
    handle_pair_created_event st ev now =
      { st with recent_launches :=
          (monitor_cache_add st.max_cache_size st.recent_launches
            (mkTokenLaunch ev t now)) } := by
  unfold handle_pair_created_event
  rw [hnew]
  simp only [hfil, if_true]

/-! ## Claims -/

/-- Claim C1 (amended): the recent-launch cache performs no pair-address
deduplication.  Handling an accepted pair-created event appends a fresh
entry regardless of whether the pair address is already cached, so two
events for the same pair address (with room in the cache) leave two
entries with that pair address. -/
theorem c1_duplicate_pair_appends (st : MonitorState) (ev : PairCreatedEvent)
    (now1 now2 : Nat)
    (hweth : pyLower ev.token0 = pyLower wethPlaceholder)
    (hfil : should_process_token st ev.token1 = true)
    (hroom : st.recent_launches.length + 1 < st.max_cache_size) :
    (handle_pair_created_event (handle_pair_created_event st ev now1) ev now2).recent_launches =
      st.recent_launches ++ [mkTokenLaunch ev ev.token1 now1, mkTokenLaunch ev ev.token1 now2] := by
  have hnew : newTokenOfEvent ev = some ev.token1 := by
    rw [newTokenOfEvent, if_pos hweth]
  have hfil2 : should_process_token
      { st with recent_launches :=
          (monitor_cache_add st.max_cache_size st.recent_launches
            (mkTokenLaunch ev ev.token1 now1)) } ev.token1 = true := by
    rw [should_process_token_cache_irrel]
    exact hfil
  rw [handle_accepted st ev now1 ev.token1 hnew hfil,
    handle_accepted _ ev now2 ev.token1 hnew hfil2]
  dsimp only
  rw [monitor_cache_add_no_trim st.max_cache_size st.recent_launches
    (mkTokenLaunch ev ev.token1 now1) (by omega)]
  rw [monitor_cache_add_no_trim _ _ _
    (by simp only [List.length_append, List.length_cons, List.length_nil]; omega)]
  rw [List.append_assoc, List.singleton_append]

/-- Witness for C1: a fresh default monitor receiving the same accepted
event twice ends with both entries appended. -/
theorem c1_duplicate_pair_appends_witness :
    (handle_pair_created_event (handle_pair_created_event freshMonitor sampleEvent 0)
        sampleEvent 1).recent_launches =
      freshMonitor.recent_launches ++
        [mkTokenLaunch sampleEvent sampleEvent.token1 0,
          mkTokenLaunch sampleEvent sampleEvent.token1 1] :=
  c1_duplicate_pair_appends freshMonitor sampleEvent 0 1 (by decide) (by decide) (by decide)

/-- Counterexample to C1 as stated: after a duplicate pair-created event
for the same pair address, the cache holds two entries with that pair
address, and both are observable through `get_recent_launches`. -/
theorem c1_two_entries_same_pair :
    ((handle_pair_created_event (handle_pair_created_event freshMonitor sampleEvent 0)
        sampleEvent 1).recent_launches.countP
          (fun l => l.pair_address == sampleEvent.pair)) = 2 ∧
    ((get_recent_launches
        (handle_pair_created_event (handle_pair_created_event freshMonitor sampleEvent 0)
          sampleEvent 1) 20).countP
          (fun l => l.pair_address == sampleEvent.pair)) = 2 := by
  decide

/-- Claim C2 (amended): the event-handler insertion path and the scan-loop
insertion path keep the cache at exactly the last `N` insertions (so the
bound and oldest-first eviction hold there), but `simulate_launch_detection`
appends without trimming, so that insertion path can exceed the capacity. -/
theorem c2_bounded_cache_paths :
    (∀ (N : Nat) (init : List TokenLaunch) (x : TokenLaunch) (xs : List TokenLaunch),
      List.foldl (monitor_cache_add N) init (x :: xs) = specTakeLast N (init ++ x :: xs)) ∧
    (∀ (N : Nat) (l : List TokenLaunch), (specTakeLast N l).length ≤ N) ∧
    (∀ (thr : ℚ) (N : Nat) (cache opps : List ArbitrageOpportunity),
      cache.length ≤ N → (scan_loop_cache_step thr N cache opps).length ≤ N) ∧
    (∀ (thr : ℚ) (N : Nat) (cache opps : List ArbitrageOpportunity),
      (opps.filter (fun opp =>
          decide (thr < opp.profit_percentage) && opp.is_executable)) ≠ [] →
      scan_loop_cache_step thr N cache opps =
        specTakeLast N (cache ++ opps.filter (fun opp =>
          decide (thr < opp.profit_percentage) && opp.is_executable))) ∧
    (∀ (st : MonitorState) (t : String) (now : Nat),
      (simulate_launch_detection st t now).recent_launches.length =
        st.recent_launches.length + 1) := by
  refine ⟨?_, ?_, ?_, ?_, ?_⟩
  · intro N init x xs
    rw [foldl_monitor_cache_add, specTakeLast_eq_rtake]
  · intro N l
    exact specTakeLast_length_le N l
  · intro thr N cache opps h
    simp only [scan_loop_cache_step]
    split_ifs with h1 h2
    · exact h
    · rw [List.length_drop]
      omega
    · simp only [List.length_append] at h2 ⊢
      omega
  · intro thr N cache opps h
    simp only [scan_loop_cache_step]
    rw [if_neg (by simpa [List.isEmpty_iff] using h), specTakeLast_eq_rtake]
    exact trim_last_eq_rtake N _
  · intro st t now
    simp [simulate_launch_detection]

/-- Witness for C2: concrete instances of the quantified parts, with each
hypothesis discharged at a concrete input. -/
theorem c2_bounded_cache_paths_witness :
    (List.foldl (monitor_cache_add 1) []
        [mkTokenLaunch sampleEvent sampleEvent.token1 0,
          mkTokenLaunch sampleEvent sampleEvent.token1 1] =
      specTakeLast 1 ([] ++
        [mkTokenLaunch sampleEvent sampleEvent.token1 0,
          mkTokenLaunch sampleEvent sampleEvent.token1 1])) ∧
    ((scan_loop_cache_step 0 1 [] [sampleOpp, sampleOpp]).length ≤ 1) ∧
    (scan_loop_cache_step 0 1 [] [sampleOpp, sampleOpp] =
      specTakeLast 1 ([] ++ [sampleOpp, sampleOpp].filter (fun opp =>
        decide ((0:ℚ) < opp.profit_percentage) && opp.is_executable))) := by
  refine ⟨?_, ?_, ?_⟩
  · exact c2_bounded_cache_paths.1 1 [] _ _
  · exact c2_bounded_cache_paths.2.2.1 0 1 [] [sampleOpp, sampleOpp] (by decide)
  · exact c2_bounded_cache_paths.2.2.2.1 0 1 [] [sampleOpp, sampleOpp]
      (by simp [sampleOpp, List.filter])

/-- Counterexample to C2 as stated: from a monitor whose cache is exactly
at its configured capacity (100), one insertion through
`simulate_launch_detection` leaves 101 cached launches, exceeding the
capacity. -/
theorem c2_simulate_exceeds_capacity :
    fullMonitor.recent_launches.length = fullMonitor.max_cache_size ∧
    (simulate_launch_detection fullMonitor "0xT" 0).recent_launches.length = 101 ∧
    fullMonitor.max_cache_size <
      (simulate_launch_detection fullMonitor "0xT" 0).recent_launches.length := by
  refine ⟨?_, ?_, ?_⟩ <;>
    simp [simulate_launch_detection, fullMonitor, freshMonitor]

/-- Claim C10 (confirmed): with Python slice semantics, `limit = 0` yields
the negative slice `[-0:]`, which is the whole cache, and any limit larger
than the cache size also returns the whole cache, for both
`get_recent_launches` and `get_recent_opportunities`. -/
theorem c10_limit_zero_and_large_full_cache (st : MonitorState)
    (cache : List ArbitrageOpportunity) (lim1 lim2 : Int)
    (h1 : (st.recent_launches.length : Int) < lim1)
    (h2 : (cache.length : Int) < lim2) :
    get_recent_launches st 0 = st.recent_launches ∧
    get_recent_launches st lim1 = st.recent_launches ∧
    get_recent_opportunities cache 0 = cache ∧
    get_recent_opportunities cache lim2 = cache := by
  refine ⟨?_, ?_, ?_, ?_⟩
  · unfold get_recent_launches pySliceFrom
    rw [if_neg (by omega)]
    have h0 : (min ((st.recent_launches.length : Int)) (-0)).toNat = 0 := by omega
    rw [h0, List.drop_zero]
  · unfold get_recent_launches pySliceFrom
    rw [if_pos (by omega)]
    have h0 : (max 0 ((st.recent_launches.length : Int) + -lim1)).toNat = 0 := by omega
    rw [h0, List.drop_zero]
  · unfold get_recent_opportunities pySliceFrom
    rw [if_neg (by omega)]
    have h0 : (min ((cache.length : Int)) (-0)).toNat = 0 := by omega
    rw [h0, List.drop_zero]
  · unfold get_recent_opportunities pySliceFrom
    rw [if_pos (by omega)]
    have h0 : (max 0 ((cache.length : Int) + -lim2)).toNat = 0 := by omega
    rw [h0, List.drop_zero]

/-- Witness for C10 at a two-element cache and limit 50. -/
theorem c10_limit_zero_and_large_full_cache_witness :
    get_recent_launches fullMonitor 0 = fullMonitor.recent_launches ∧
    get_recent_launches fullMonitor 200 = fullMonitor.recent_launches ∧
    get_recent_opportunities [sampleOpp] 0 = [sampleOpp] ∧
    get_recent_opportunities [sampleOpp] 50 = [sampleOpp] :=
  c10_limit_zero_and_large_full_cache fullMonitor [sampleOpp] 200 50
    (by simp [fullMonitor, freshMonitor]) (by simp)

/-- The scanner's concrete output at quotes 1 and 2 with threshold 50 and
zero gas (used to instantiate the quantified scanner claims). -/
theorem scan_quotes12_eval :
    scan_dex_pair_token "X" "Y" "0xT" "TKN" 1 2 50 0 0 0 = some oppQuotes12 := by
  have habs : |(1:ℚ) - 2| = 1 := by
    rw [abs_of_nonpos (by norm_num)]; norm_num
  have hmin : min (1:ℚ) 2 = 1 := min_eq_left (by norm_num)
  unfold scan_dex_pair_token
  rw [if_pos (show (0:ℚ) < 1 ∧ (0:ℚ) < 2 by constructor <;> norm_num)]
  simp only [habs, hmin]
  rw [if_pos (show (50:ℚ) < 1/1*100 by norm_num)]
  rw [if_pos (show (1:ℚ) < 2 by norm_num)]
  simp only [oppQuotes12, Option.some.injEq, ArbitrageOpportunity.mk.injEq]
  norm_num [decide_eq_true_eq]

/-- The scanner's concrete output in the spec's Scenario A: quotes 1.00
and 1.05, threshold 1, gas estimate 500000 units at 1 gwei (cost 0.0005). -/
theorem scan_scenario_a_eval :
    scan_dex_pair_token "X" "Y" "0xMonitored" "TKN" 1 (21/20) 1 500000 ((10:ℚ)^9) 0 =
      some oppScenarioA := by
  have habs : |(1:ℚ) - 21/20| = 1/20 := by
    rw [abs_of_nonpos (by norm_num)]; norm_num
  have hmin : min (1:ℚ) (21/20) = 1 := min_eq_left (by norm_num)
  unfold scan_dex_pair_token
  rw [if_pos (show (0:ℚ) < 1 ∧ (0:ℚ) < 21/20 by constructor <;> norm_num)]
  simp only [habs, hmin]
  rw [if_pos (show (1:ℚ) < 1/20/1*100 by norm_num)]
  rw [if_pos (show (1:ℚ) < 21/20 by norm_num)]
  simp only [oppScenarioA, Option.some.injEq, ArbitrageOpportunity.mk.injEq]
  norm_num [decide_eq_true_eq]

/-- Claim C3 (confirmed): every opportunity the scanner records at positive
unequal quotes carries `|pA − pB| / min(pA, pB) × 100` as its spread, and
its buy side (`dex_a`, `price_a`) is the exchange with the strictly
smaller quote. -/
theorem c3_spread_formula_and_buy_side (dex_a_name dex_b_name token_address token_symbol : String)
    (price_a price_b thr gas_estimate gas_price : ℚ) (now : Nat)
    (hA : 0 < price_a) (hB : 0 < price_b) (hne : price_a ≠ price_b)
    (opp : ArbitrageOpportunity)
    (h : scan_dex_pair_token dex_a_name dex_b_name token_address token_symbol
        price_a price_b thr gas_estimate gas_price now = some opp) :
    opp.profit_percentage = specSpreadPct price_a price_b ∧
    opp.price_a = min price_a price_b ∧
    opp.price_b = max price_a price_b ∧
    opp.dex_a = (if price_a < price_b then dex_a_name else dex_b_name) ∧
    opp.price_a < opp.price_b := by
  unfold scan_dex_pair_token at h
  rw [if_pos ⟨hA, hB⟩] at h
  rcases lt_or_gt_of_ne hne with hlt | hgt
  · simp only [if_pos hlt] at h ⊢
    split at h
    · injection h with h'
      subst h'
      exact ⟨rfl, (min_eq_left hlt.le).symm, (max_eq_right hlt.le).symm, rfl, hlt⟩
    · exact absurd h (by simp)
  · have hnlt : ¬ price_a < price_b := not_lt.mpr hgt.le
    simp only [if_neg hnlt] at h ⊢
    split at h
    · injection h with h'
      subst h'
      exact ⟨rfl, (min_eq_right hgt.le).symm, (max_eq_left hgt.le).symm, rfl, hgt⟩
    · exact absurd h (by simp)

/-- Witness for C3 at quotes 1 and 2. -/
theorem c3_spread_formula_and_buy_side_witness :
    scan_dex_pair_token "X" "Y" "0xT" "TKN" 1 2 50 0 0 0 = some oppQuotes12 ∧
    (oppQuotes12.profit_percentage = specSpreadPct 1 2 ∧
      oppQuotes12.price_a = min 1 2 ∧
      oppQuotes12.price_b = max 1 2 ∧
      oppQuotes12.dex_a = (if (1:ℚ) < 2 then "X" else "Y") ∧
      oppQuotes12.price_a < oppQuotes12.price_b) :=
  ⟨scan_quotes12_eval,
    c3_spread_formula_and_buy_side "X" "Y" "0xT" "TKN" 1 2 50 0 0 0
      (by norm_num) (by norm_num) (by norm_num) oppQuotes12 scan_quotes12_eval⟩

/-- Claim C4 (amended): in Scenario A (quotes 1.00 and 1.05, probe notional
0.1, gas cost 0.0005) the scanner computes spreadPct = 5% (it divides the
gap by the smaller quote, not the larger), orients the buy on X, computes
netProfit = 0.1×0.05 − 0.0005 = 0.0045, and marks the opportunity
executable because 0.0045 exceeds the fixed 0.001 floor — independently of
the percentage threshold used for recording. -/
theorem c4_scenario_a_corrected :
    scan_dex_pair_token "X" "Y" "0xMonitored" "TKN" 1 (21/20) 1 500000 ((10:ℚ)^9) 0 =
      some oppScenarioA ∧
    oppScenarioA.profit_percentage = 5 ∧
    oppScenarioA.dex_a = "X" ∧
    oppScenarioA.net_profit = 1/10 * (21/20 - 1) - 1/2000 ∧
    oppScenarioA.net_profit = 9/2000 ∧
    oppScenarioA.is_executable = true ∧
    (1/1000 : ℚ) < oppScenarioA.net_profit := by
  refine ⟨scan_scenario_a_eval, rfl, rfl, ?_, rfl, rfl, ?_⟩
  · show (9/2000 : ℚ) = 1/10 * (21/20 - 1) - 1/2000
    norm_num
  · show (1/1000 : ℚ) < 9/2000
    norm_num

/-- Counterexample to C4 as stated: at Scenario A's inputs the computed
spread percentage is exactly 5, which is not within 0.2 of the claimed
≈ 4.76. -/
theorem c4_spread_is_five_not_476 :
    (scan_dex_pair_token "X" "Y" "0xMonitored" "TKN" 1 (21/20) 1 500000 ((10:ℚ)^9) 0).map
        (fun o => o.profit_percentage) = some 5 ∧
    ¬ (|(5:ℚ) - 476/100| < 1/5) := by
  constructor
  · rw [scan_scenario_a_eval]
    rfl
  · rw [abs_of_nonneg (by norm_num)]
    norm_num

/-- Claim C5 (confirmed): every opportunity the scanner records has
`is_executable = true` exactly when its net profit exceeds the fixed
absolute floor 0.001, for every percentage threshold. -/
theorem c5_executable_iff_net_profit (dex_a_name dex_b_name token_address token_symbol : String)
    (price_a price_b thr gas_estimate gas_price : ℚ) (now : Nat)
    (opp : ArbitrageOpportunity)
    (h : scan_dex_pair_token dex_a_name dex_b_name token_address token_symbol
        price_a price_b thr gas_estimate gas_price now = some opp) :
    opp.is_executable = true ↔ (1/1000 : ℚ) < opp.net_profit := by
  unfold scan_dex_pair_token at h
  split at h
  · split at h <;> dsimp only at h <;> split at h <;>
      first
        | (injection h with h'; subst h'; simp only [decide_eq_true_eq])
        | exact absurd h (by simp)
  · exact absurd h (by simp)

/-- Witness for C5 at quotes 1 and 2 (net profit 0.1 > 0.001). -/
theorem c5_executable_iff_net_profit_witness :
    scan_dex_pair_token "X" "Y" "0xT" "TKN" 1 2 50 0 0 0 = some oppQuotes12 ∧
    (oppQuotes12.is_executable = true ↔ (1/1000 : ℚ) < oppQuotes12.net_profit) :=
  ⟨scan_quotes12_eval,
    c5_executable_iff_net_profit "X" "Y" "0xT" "TKN" 1 2 50 0 0 0 oppQuotes12
      scan_quotes12_eval⟩

/-- Claim C6 (confirmed): for a fixed quoted output, a larger slippage
percentage never yields a larger minimum acceptable output
(`minOut = int(quotedOut × (100 − slippagePct) / 100)` is antitone in the
slippage percentage). -/
theorem c6_slippage_monotone (amounts : Option (List Nat)) (s1 s2 : ℚ) (h : s1 < s2) :
    calculate_slippage amounts s2 ≤ calculate_slippage amounts s1 := by
  cases amounts with
  | none => simp [calculate_slippage]
  | some l =>
    cases hl : l.getLast? with
    | none => simp [calculate_slippage, hl]
    | some expected_out =>
      simp only [calculate_slippage, hl]
      apply ratTrunc_mono
      have hdiv : (100 - s2) / 100 ≤ (100 - s1) / 100 := by linarith
      exact mul_le_mul_of_nonneg_left hdiv (by positivity)

/-- Witness for C6: quoted output 100, slippage 1% versus 2%. -/
theorem c6_slippage_monotone_witness :
    (1:ℚ) < 2 ∧ calculate_slippage (some [100]) 2 ≤ calculate_slippage (some [100]) 1 :=
  ⟨by norm_num, c6_slippage_monotone (some [100]) 1 2 (by norm_num)⟩

/-- Claim C7 (amended): `submit_snipe` assigns the identity key, records
the request, appends it to the execution queue (FIFO, at the tail) and
returns the key; the queue is unbounded and submission never fails, so
there is no `Overloaded` rejection at any queue length. -/
theorem c7_submit_always_succeeds (st : ExecutorState) (r : SnipeRequest) :
    (submit_snipe st r).1 = request_key r ∧
    (submit_snipe st r).2.execution_queue = st.execution_queue ++ [r] ∧
    (submit_snipe st r).2.execution_queue.length = st.execution_queue.length + 1 := by
  refine ⟨rfl, rfl, ?_⟩
  simp [submit_snipe]

/-- Counterexample to C7 as stated: with one million requests already
queued, `submit_snipe` still succeeds and enqueues (no capacity check
exists, hence no `Overloaded` failure at capacity). -/
theorem c7_no_overload_at_million :
    (submit_snipe (queuedState 1000000) sampleRequest).1 = request_key sampleRequest ∧
    (submit_snipe (queuedState 1000000) sampleRequest).2.execution_queue.length = 1000001 := by
  constructor
  · rfl
  · show (List.replicate 1000000 sampleRequest ++ [sampleRequest]).length = 1000001
    rw [List.length_append, List.length_replicate, List.length_singleton]

/-- Claim C8 (amended): re-submitting a request with the same identity key
is accepted, not rejected: the second submission returns the same key,
enqueues a second copy of the request, and merges (overwrites) the
active-snipes entry so the map does not grow. -/
theorem c8_resubmit_merged_not_rejected (st : ExecutorState) (r : SnipeRequest) :
    (submit_snipe (submit_snipe st r).2 r).1 = (submit_snipe st r).1 ∧
    (submit_snipe (submit_snipe st r).2 r).2.execution_queue = st.execution_queue ++ [r, r] ∧
    ((submit_snipe (submit_snipe st r).2 r).2.active_snipes.lookup (request_key r)) = some r ∧
    (submit_snipe (submit_snipe st r).2 r).2.active_snipes.length =
      (submit_snipe st r).2.active_snipes.length := by
  refine ⟨rfl, ?_, ?_, ?_⟩
  · show (st.execution_queue ++ [r]) ++ [r] = st.execution_queue ++ [r, r]
    simp
  · exact lookup_dictInsert _ _ _
  · show (dictInsert (dictInsert st.active_snipes (request_key r) r) (request_key r) r).length =
      (dictInsert st.active_snipes (request_key r) r).length
    apply length_dictInsert_present
    rw [lookup_dictInsert]
    rfl

/-- Counterexample to C8 as stated: submitting the same request twice from
an empty executor is not rejected — it yields the same key twice, two
queued copies, and a single merged active entry. -/
theorem c8_duplicate_submission_accepted :
    (submit_snipe (submit_snipe (queuedState 0) sampleRequest).2 sampleRequest).1 =
      (submit_snipe (queuedState 0) sampleRequest).1 ∧
    (submit_snipe (submit_snipe (queuedState 0) sampleRequest).2
        sampleRequest).2.execution_queue.length = 2 ∧
    (submit_snipe (submit_snipe (queuedState 0) sampleRequest).2
        sampleRequest).2.active_snipes.length = 1 := by
  refine ⟨rfl, by decide, by decide⟩

/-- Claim C9 (amended): the three structured failure paths of
`_execute_snipe` (preflight rejection, missing token info, transaction
build failure) produce a terminal failure `SnipeResult` carrying a reason,
returned to the consuming loop rather than raised; but the failure result
is not stored in `snipe_results`, so the executor state is unchanged and
`get_snipe_status` cannot surface the failure. -/
theorem c9_failures_returned_not_stored (env : ExecEnv) (st : ExecutorState)
    (r : SnipeRequest)
    (h : env.preflight_ok = false ∨ env.token_info = none ∨ env.build_ok = false) :
    (execute_snipe env st r).1.success = false ∧
    ((execute_snipe env st r).1.error_message).isSome = true ∧
    (execute_snipe env st r).2 = st := by
  unfold execute_snipe
  rcases h with h | h | h
  · simp [h, failedSnipeResult]
  · cases hp : env.preflight_ok
    · simp [failedSnipeResult]
    · simp [hp, h, failedSnipeResult]
  · cases hp : env.preflight_ok
    · simp [failedSnipeResult]
    · cases ht : env.token_info with
      | none => simp [hp, ht, failedSnipeResult]
      | some info => simp [hp, ht, h, failedSnipeResult]

/-- Witness for C9: a failing preflight environment on a submitted request. -/
theorem c9_failures_returned_not_stored_witness :
    failEnv.preflight_ok = false ∧
    ((execute_snipe failEnv (queuedState 0) sampleRequest).1.success = false ∧
      ((execute_snipe failEnv (queuedState 0) sampleRequest).1.error_message).isSome = true ∧
      (execute_snipe failEnv (queuedState 0) sampleRequest).2 = queuedState 0) :=
  ⟨rfl, c9_failures_returned_not_stored failEnv (queuedState 0) sampleRequest (Or.inl rfl)⟩

/-- Counterexample to C9 as stated: after submitting a request and failing
its preflight checks, the failure result exists only as a return value —
`get_snipe_status` for the submitted key reports not-found. -/
theorem c9_failed_request_invisible_to_status :
    (execute_snipe failEnv (submit_snipe (queuedState 0) sampleRequest).2
        sampleRequest).1.success = false ∧
    (execute_snipe failEnv (submit_snipe (queuedState 0) sampleRequest).2
        sampleRequest).1.error_message = some "Pre-execution checks failed" ∧
    get_snipe_status
        (execute_snipe failEnv (submit_snipe (queuedState 0) sampleRequest).2
          sampleRequest).2
        (submit_snipe (queuedState 0) sampleRequest).1 = none := by
  refine ⟨rfl, rfl, rfl⟩

end AtalantaBot
